import Mathlib

/-!
# Verification of the Handcrafted Arts Initiative backend

A shallow embedding of the HTTP handlers in `main.py` and the Pydantic
schemas in `schemas.py` of the artisan-directory backend, with theorems
about the registration, listing, event-tracking and diagnostic endpoints.

External effects (the document store, the outbound HTTP POST, the
environment) are passed to each handler as explicit parameters describing
the outcome of the corresponding call, and each handler returns — besides
its HTTP response — the store writes and HTTP requests it performed, so
that properties about side effects can be stated.
-/

namespace HAI

/-- JSON-like values as they appear in request/response bodies and store
documents.  `objectId` models a BSON ObjectId (the store's identifier
type), `time` models a Python `datetime` object (as opposed to an
already-ISO-formatted string, which is `str`). -/
inductive Value : Type where
  | str (s : String)
  | bool (b : Bool)
  | num (n : Nat)
  | null
  | objectId (s : String)
  | time (t : String)
  | obj (kvs : List (String × Value))
  | arr (vs : List Value)

/-- A Python dict with string keys, as an association list (keys in
insertion order, assumed unique where it matters). -/
abbrev Doc : Type := List (String × Value)

/-- `schemas.Registration` (schemas.py lines 44-53): nine fields, five
required.  `source` has the Pydantic default `"website"`, applied by
`parseRegistration` below. -/
structure Registration : Type where
  name : String
  craft_type : String
  location : String
  phone : String
  email : Option String
  image1_base64 : Option String
  image2_base64 : Option String
  consent : Bool
  source : Option String

/-- `None`-or-string rendered as a JSON value, as `model_dump` /
`json=` serialization does. -/
def optVal : Option String → Value
  | none => Value.null
  | some s => Value.str s

/-- `payload.model_dump()` for a `Registration` (main.py line 124): the
nine declared fields, in declaration order. -/
def dumpRegistration (r : Registration) : Doc :=
  [("name", Value.str r.name),
   ("craft_type", Value.str r.craft_type),
   ("location", Value.str r.location),
   ("phone", Value.str r.phone),
   ("email", optVal r.email),
   ("image1_base64", optVal r.image1_base64),
   ("image2_base64", optVal r.image2_base64),
   ("consent", Value.bool r.consent),
   ("source", optVal r.source)]

/-- `requests.Response.ok`: true unless `raise_for_status` would raise,
i.e. unless the status code is a 4xx client error or 5xx server error
(400 ≤ code < 600). -/
def respOk (s : Nat) : Bool :=
  if 400 ≤ s ∧ s < 600 then false else true

/-- Outcome of the `requests.post` call in the register handler: either a
completed HTTP response with a status code, or an exception (transport
failure) with its message `str(e)`. -/
inductive HttpOutcome : Type where
  | response (status : Nat)
  | exn (msg : String)

/-- An outbound HTTP POST performed by the handler:
`requests.post(url, json=body, timeout=timeout)`. -/
structure ForwardRequest : Type where
  url : String
  body : Doc
  timeout : Nat

/-- The JSON body of a successful `/api/register` response
(main.py line 136). -/
structure RegisterResult : Type where
  ok : Bool
  id : String
  forwarded : Bool
  forward_status : Option Value

/-- Everything observable about one run of the register handler: the
store writes it attempted (collection name and payload), the outbound
HTTP requests it performed, and its HTTP response (`Except.error` models
an `HTTPException`, here the 500 "DB error"). -/
structure RegisterOutcome : Type where
  writes : List (String × Registration)
  requests : List ForwardRequest
  response : Except String RegisterResult

/-- `register_artisan` (main.py lines 109-136).  `store` is the outcome
of `create_document("registration", payload)` — the new identifier, or
the raised exception's message; `webhook` is
`os.getenv("GOOGLE_SHEETS_WEBHOOK_URL")` (Python truthiness: `None` and
`""` both skip forwarding); `now` is `datetime.now(timezone.utc)
.isoformat()`; `http` is the outcome of the `requests.post` call (the
`import requests` is assumed available, as in deployment).  `forwarded`
is initialized `False` and set to `r.ok` only when a response arrives;
an exception leaves it `False` and records the truncated message. -/
def register_artisan (r : Registration) (store : Except String String)
    (webhook : Option String) (now : String) (http : HttpOutcome) :
    RegisterOutcome :=
  match store with
  | Except.error e =>
      ⟨[("registration", r)], [], Except.error ("DB error: " ++ e)⟩
  | Except.ok regId =>
      match webhook with
      | none => ⟨[("registration", r)], [], Except.ok ⟨true, regId, false, none⟩⟩
      | some w =>
          if w = "" then
            ⟨[("registration", r)], [], Except.ok ⟨true, regId, false, none⟩⟩
          else
            let data : Doc := dumpRegistration r ++
              [("_source", Value.str "website"),
               ("_received_at", Value.str now),
               ("_registration_id", Value.str regId)]
            let req : ForwardRequest := ⟨w, data, 10⟩
            match http with
            | HttpOutcome.response s =>
                ⟨[("registration", r)], [req],
                 Except.ok ⟨true, regId, respOk s, some (Value.num s)⟩⟩
            | HttpOutcome.exn msg =>
                ⟨[("registration", r)], [req],
                 Except.ok ⟨true, regId, false,
                            some (Value.str ("error: " ++ msg.take 120))⟩⟩

end HAI

namespace HAI

/-- C2: with no forwarding URL configured (`os.getenv` returns `None`, or
the variable is set to the empty string), the register handler performs no
outbound HTTP POST, persists the registration, and responds
`ok=true, forwarded=false, forward_status=null`. -/
theorem register_no_webhook (r : Registration) (regId now : String)
    (http : HttpOutcome) :
    register_artisan r (Except.ok regId) none now http =
      ⟨[("registration", r)], [], Except.ok ⟨true, regId, false, none⟩⟩ ∧
    register_artisan r (Except.ok regId) (some "") now http =
      ⟨[("registration", r)], [], Except.ok ⟨true, regId, false, none⟩⟩ := by
  constructor
  · rfl
  · simp [register_artisan]

/-- A concrete registration used in counterexamples and witnesses. -/
def regSample : Registration :=
  ⟨"Asha", "pottery", "Jaipur", "9999999999", none, none, none, true,
   some "website"⟩

/-- C1, counterexample: the claim says a non-2xx remote status always
yields `forwarded=false`, but with remote status 304 — which is not a
2xx status — the handler returns `forwarded=true`, because the code sets
`forwarded = r.ok` and `requests` treats every status below 400 as ok. -/
theorem register_non2xx_counterexample :
    (register_artisan regSample (Except.ok "65aa00")
        (some "https://script.google.com/hook") "2026-01-01T00:00:00+00:00"
        (HttpOutcome.response 304)).response =
      Except.ok ⟨true, "65aa00", true, some (Value.num 304)⟩ ∧
    ¬ (200 ≤ 304 ∧ 304 < 300) := by
  constructor
  · rfl
  · decide

/-- C1, amended: when the forwarding POST completes with a 4xx/5xx status
code (400 ≤ s < 600), the register handler returns `ok=true` with the
persisted id, `forwarded=false`, and `forward_status` equal to the remote
status code. -/
theorem register_error_status (r : Registration) (regId w now : String)
    (s : Nat) (hw : w ≠ "") (h4 : 400 ≤ s) (h6 : s < 600) :
    (register_artisan r (Except.ok regId) (some w) now
        (HttpOutcome.response s)).response =
      Except.ok ⟨true, regId, false, some (Value.num s)⟩ := by
  simp [register_artisan, hw, respOk, h4, h6]

/-- Witness for `register_error_status` at remote status 500. -/
theorem register_error_status_witness :
    (register_artisan regSample (Except.ok "65aa01")
        (some "https://script.google.com/hook") "2026-01-01T00:00:00+00:00"
        (HttpOutcome.response 500)).response =
      Except.ok ⟨true, "65aa01", false, some (Value.num 500)⟩ :=
  register_error_status regSample "65aa01" "https://script.google.com/hook"
    "2026-01-01T00:00:00+00:00" 500 (by decide) (by decide) (by decide)

/-- The exact key sequence of the forwarded payload: the nine
`Registration` fields followed by the three provenance keys. -/
def forwardedKeys : List String :=
  ["name", "craft_type", "location", "phone", "email", "image1_base64",
   "image2_base64", "consent", "source",
   "_source", "_received_at", "_registration_id"]

/-- C5: with a forwarding URL configured, the handler performs exactly one
HTTP POST, whose body is the `model_dump` of the registration augmented
with exactly the provenance keys `_source`, `_received_at` (a timestamp)
and `_registration_id` (the persisted id), with timeout 10 — whatever the
outcome of the POST. -/
theorem register_forward_payload (r : Registration) (regId w now : String)
    (http : HttpOutcome) (hw : w ≠ "") :
    (register_artisan r (Except.ok regId) (some w) now http).requests =
      [⟨w, dumpRegistration r ++
          [("_source", Value.str "website"),
           ("_received_at", Value.str now),
           ("_registration_id", Value.str regId)], 10⟩] ∧
    (register_artisan r (Except.ok regId) (some w) now http).requests.map
        (fun q => q.body.map Prod.fst) = [forwardedKeys] := by
  cases http <;>
    simp [register_artisan, hw, dumpRegistration, forwardedKeys]

/-- Witness for `register_forward_payload` on a concrete registration. -/
theorem register_forward_payload_witness :
    (register_artisan regSample (Except.ok "65aa02")
        (some "https://script.google.com/hook") "2026-01-01T00:00:00+00:00"
        (HttpOutcome.response 200)).requests =
      [⟨"https://script.google.com/hook",
        dumpRegistration regSample ++
          [("_source", Value.str "website"),
           ("_received_at", Value.str "2026-01-01T00:00:00+00:00"),
           ("_registration_id", Value.str "65aa02")], 10⟩] ∧
    (register_artisan regSample (Except.ok "65aa02")
        (some "https://script.google.com/hook") "2026-01-01T00:00:00+00:00"
        (HttpOutcome.response 200)).requests.map
        (fun q => q.body.map Prod.fst) = [forwardedKeys] :=
  register_forward_payload regSample "65aa02"
    "https://script.google.com/hook" "2026-01-01T00:00:00+00:00"
    (HttpOutcome.response 200) (by decide)

/-- C6: when the forwarding POST raises a transport failure, the register
handler still responds `ok=true` with the persisted id, `forwarded=false`,
and `forward_status` the error message truncated to 120 characters and
prefixed `error: `; the write to the registration collection stands
exactly as performed (one write, no reversal, no retry) and the POST was
attempted exactly once (no retry). -/
theorem register_transport_failure (r : Registration)
    (regId w now msg : String) (hw : w ≠ "") :
    register_artisan r (Except.ok regId) (some w) now
        (HttpOutcome.exn msg) =
      ⟨[("registration", r)],
       [⟨w, dumpRegistration r ++
            [("_source", Value.str "website"),
             ("_received_at", Value.str now),
             ("_registration_id", Value.str regId)], 10⟩],
       Except.ok ⟨true, regId, false,
                  some (Value.str ("error: " ++ msg.take 120))⟩⟩ := by
  simp [register_artisan, hw]

/-- Witness for `register_transport_failure` on a concrete timeout. -/
theorem register_transport_failure_witness :
    register_artisan regSample (Except.ok "65aa03")
        (some "https://script.google.com/hook") "2026-01-01T00:00:00+00:00"
        (HttpOutcome.exn "ConnectTimeout") =
      ⟨[("registration", regSample)],
       [⟨"https://script.google.com/hook",
         dumpRegistration regSample ++
           [("_source", Value.str "website"),
            ("_received_at", Value.str "2026-01-01T00:00:00+00:00"),
            ("_registration_id", Value.str "65aa03")], 10⟩],
       Except.ok ⟨true, "65aa03", false,
                  some (Value.str ("error: " ++
                    String.take "ConnectTimeout" 120))⟩⟩ :=
  register_transport_failure regSample "65aa03"
    "https://script.google.com/hook" "2026-01-01T00:00:00+00:00"
    "ConnectTimeout" (by decide)

/-- Model of the Pydantic/email-validator check behind `EmailStr`: one
`@`, nonempty local part, and a domain with a period and no empty
labels.  (External library; only its acceptance of well-formed addresses
matters to the claims.) -/
def isValidEmail (s : String) : Bool :=
  match s.splitOn "@" with
  | [loc, domain] =>
      loc ≠ "" && domain.contains '.' && (domain.splitOn ".").all (· ≠ "")
  | _ => false

/-- A required `str` field: present and a string, else a validation
error. -/
def getStr (body : Doc) (k : String) : Except String String :=
  match body.lookup k with
  | some (Value.str s) => Except.ok s
  | _ => Except.error (k ++ ": field required as string")

/-- An `Optional[str] = None` field: absent or `null` becomes `None`. -/
def getOptStr (body : Doc) (k : String) : Except String (Option String) :=
  match body.lookup k with
  | none => Except.ok none
  | some Value.null => Except.ok none
  | some (Value.str s) => Except.ok (some s)
  | some _ => Except.error (k ++ ": not a string")

/-- The `Optional[EmailStr] = None` field. -/
def getEmail (body : Doc) : Except String (Option String) :=
  match body.lookup "email" with
  | none => Except.ok none
  | some Value.null => Except.ok none
  | some (Value.str s) =>
      if isValidEmail s then Except.ok (some s)
      else Except.error "email: value is not a valid email address"
  | some _ => Except.error "email: not a string"

/-- A required `bool` field. -/
def getBool (body : Doc) (k : String) : Except String Bool :=
  match body.lookup k with
  | some (Value.bool b) => Except.ok b
  | _ => Except.error (k ++ ": field required as bool")

/-- The `source: Optional[str] = "website"` field: the default applies
when the key is absent; an explicit `null` yields `None`. -/
def getSource (body : Doc) : Except String (Option String) :=
  match body.lookup "source" with
  | none => Except.ok (some "website")
  | some Value.null => Except.ok none
  | some (Value.str s) => Except.ok (some s)
  | some _ => Except.error "source: not a string"

/-- Validation of an inbound `/api/register` body against the
`Registration` schema (schemas.py lines 44-53): four required strings, a
validated optional email, two optional base64 strings, a required bool
`consent` (no constraint on its value), and `source` defaulting to
`"website"`.  Extra fields are ignored, as in Pydantic's default
config. -/
def parseRegistration (body : Doc) : Except String Registration := do
  let nm ← getStr body "name"
  let craft ← getStr body "craft_type"
  let loc ← getStr body "location"
  let ph ← getStr body "phone"
  let email ← getEmail body
  let img1 ← getOptStr body "image1_base64"
  let img2 ← getOptStr body "image2_base64"
  let consent ← getBool body "consent"
  let src ← getSource body
  Except.ok ⟨nm, craft, loc, ph, email, img1, img2, consent, src⟩

/-- C4: a payload whose required fields are valid strings and whose
`consent` field is `false` passes validation (no rejection on
`consent=false`), and the register handler persists it to the
`registration` collection and responds `ok=true`. -/
theorem register_consent_false (n c l p regId now : String)
    (http : HttpOutcome) :
    parseRegistration
        [("name", Value.str n), ("craft_type", Value.str c),
         ("location", Value.str l), ("phone", Value.str p),
         ("consent", Value.bool false)] =
      Except.ok ⟨n, c, l, p, none, none, none, false, some "website"⟩ ∧
    register_artisan ⟨n, c, l, p, none, none, none, false, some "website"⟩
        (Except.ok regId) none now http =
      ⟨[("registration",
         ⟨n, c, l, p, none, none, none, false, some "website"⟩)], [],
       Except.ok ⟨true, regId, false, none⟩⟩ := by
  exact ⟨rfl, rfl⟩

/-- C9: the `_source` field of every forwarded payload is the literal
string `"website"`, whatever the registration's own `source` field was —
the handler writes the constant, not `payload.source`. -/
theorem register_source_constant (r : Registration) (regId w now : String)
    (http : HttpOutcome) (hw : w ≠ "") :
    (register_artisan r (Except.ok regId) (some w) now http).requests.map
        (fun q => q.body.lookup "_source") = [some (Value.str "website")] := by
  cases http <;> simp [register_artisan, hw] <;> rfl

/-- Witness for `register_source_constant` on a registration whose own
`source` field is `"mobile_app"`, not `"website"`. -/
theorem register_source_constant_witness :
    (register_artisan
        ⟨"Ravi", "handloom", "Kutch", "8888888888", none, none, none, true,
         some "mobile_app"⟩
        (Except.ok "65aa04") (some "https://script.google.com/hook")
        "2026-01-01T00:00:00+00:00" (HttpOutcome.response 200)).requests.map
        (fun q => q.body.lookup "_source") = [some (Value.str "website")] :=
  register_source_constant
    ⟨"Ravi", "handloom", "Kutch", "8888888888", none, none, none, true,
     some "mobile_app"⟩
    "65aa04" "https://script.google.com/hook" "2026-01-01T00:00:00+00:00"
    (HttpOutcome.response 200) (by decide)

/-- The `Event` Pydantic model (main.py lines 143-145): required `name`,
optional `meta` dict defaulting to `None`. -/
structure Event : Type where
  name : String
  meta : Option Doc

/-- Validation of an inbound `/api/event` body against `Event`: `name`
required string; `meta` absent or `null` becomes `None`, a dict is kept,
anything else is rejected. -/
def parseEvent (body : Doc) : Except String Event :=
  match body.lookup "name" with
  | some (Value.str n) =>
      match body.lookup "meta" with
      | none => Except.ok ⟨n, none⟩
      | some Value.null => Except.ok ⟨n, none⟩
      | some (Value.obj m) => Except.ok ⟨n, some m⟩
      | some _ => Except.error "meta: not a dict"
  | _ => Except.error "name: field required as string"

/-- Python `ev.meta or {}`: `None` (and the already-empty dict) becomes
the empty dict. -/
def metaOrEmpty : Option Doc → Doc
  | none => []
  | some m => m

/-- The `/api/event` response body. -/
structure TrackResponse : Type where
  ok : Bool

/-- Everything observable about one run of the event handler: the store
write it attempted (collection and document), whether that write
succeeded, and the HTTP response. -/
structure EventOutcome : Type where
  collection : String
  doc : Doc
  stored : Bool
  response : TrackResponse

/-- `track_event` (main.py lines 148-154).  `store` is the outcome of
`create_document("event", ...)`; a raised exception is caught by the bare
`except` and discarded, so the response is `{ok: true}` in every case.
`now` is the handler-assigned `datetime.now(timezone.utc)` timestamp. -/
def track_event (ev : Event) (now : String) (store : Except String Unit) :
    EventOutcome :=
  ⟨"event",
   [("name", Value.str ev.name), ("meta", Value.obj (metaOrEmpty ev.meta)),
    ("ts", Value.time now)],
   (match store with | Except.ok _ => true | Except.error _ => false),
   ⟨true⟩⟩

/-- C3: the event handler responds `{ok: true}` for every event and every
store outcome — in particular when the store write raises. -/
theorem track_event_always_ok (ev : Event) (now msg : String)
    (store : Except String Unit) :
    (track_event ev now (Except.error msg)).response = ⟨true⟩ ∧
    (track_event ev now store).response = ⟨true⟩ :=
  ⟨rfl, rfl⟩

/-- C10: when the request body omits `meta` or supplies `meta=null`, the
document handed to the store write has `meta` equal to the empty mapping,
together with the caller-supplied `name` and the handler-assigned
timestamp `ts`. -/
theorem track_event_meta_default (body : Doc) (ev : Event) (now : String)
    (store : Except String Unit)
    (hp : parseEvent body = Except.ok ev)
    (hm : body.lookup "meta" = none ∨ body.lookup "meta" = some Value.null) :
    (track_event ev now store).collection = "event" ∧
    (track_event ev now store).doc =
      [("name", Value.str ev.name), ("meta", Value.obj []),
       ("ts", Value.time now)] := by
  have hmeta : ev.meta = none := by
    cases hn : body.lookup "name" with
    | none => simp [parseEvent, hn] at hp
    | some v =>
      cases v <;> rcases hm with h | h <;>
        simp_all [parseEvent] <;> simp [← hp]
  refine ⟨rfl, ?_⟩
  simp [track_event, hmeta, metaOrEmpty]

/-- Witness for `track_event_meta_default` on a body with no `meta`
key. -/
theorem track_event_meta_default_witness :
    (track_event ⟨"pageview", none⟩ "2026-01-01T00:00:00+00:00"
        (Except.ok ())).collection = "event" ∧
    (track_event ⟨"pageview", none⟩ "2026-01-01T00:00:00+00:00"
        (Except.ok ())).doc =
      [("name", Value.str "pageview"), ("meta", Value.obj []),
       ("ts", Value.time "2026-01-01T00:00:00+00:00")] :=
  track_event_meta_default [("name", Value.str "pageview")]
    ⟨"pageview", none⟩ "2026-01-01T00:00:00+00:00" (Except.ok ())
    rfl (Or.inl rfl)

/-- The equality filter built by `list_artisans` (main.py lines 85-91):
`category`/`region` only when truthy (non-`None`, nonempty), `featured`
whenever supplied. -/
def buildFilter (category region : Option String) (featured : Option Bool) :
    Doc :=
  (match category with
   | some c => if c = "" then [] else [("craft_type", Value.str c)]
   | none => []) ++
  (match region with
   | some rg => if rg = "" then [] else [("region", Value.str rg)]
   | none => []) ++
  (match featured with
   | some b => [("featured", Value.bool b)]
   | none => [])

/-- `d["id"] = str(d.pop("_id"))` on a dict: remove `_id`, then set `id`
(overwriting in place if present, else appending). -/
def setKey (k : String) (v : Value) (d : Doc) : Doc :=
  if d.any (fun p => p.1 == k) then
    d.map (fun p => if p.1 == k then (k, v) else p)
  else d ++ [(k, v)]

/-- The body of the normalization loop in `list_artisans` (main.py lines
96-98): if the document's `_id` is a BSON ObjectId, pop it and store its
string rendering under `id`; otherwise leave the document alone. -/
def normalizeDoc (d : Doc) : Doc :=
  match d.lookup "_id" with
  | some (Value.objectId s) =>
      setKey "id" (Value.str s)
        (d.eraseP (fun p => p.1 == "_id"))
  | _ => d

/-- `list_artisans` (main.py lines 83-102).  `getDocs` is the
`get_documents("artisan", filt, limit)` call; `bsonAvailable` is whether
`from bson import ObjectId` succeeds.  If `get_documents` raises, the
bare `except` runs `return docs` with `docs` never assigned, so a
`NameError` escapes the handler (an error response, not a document list).
If only the bson import fails, the exception is caught after `docs` was
assigned and the raw documents are returned un-normalized. -/
def list_artisans (category region : Option String) (featured : Option Bool)
    (limit : Nat) (getDocs : Doc → Nat → Except String (List Doc))
    (bsonAvailable : Bool) : Except String (List Doc) :=
  match getDocs (buildFilter category region featured) limit with
  | Except.error _ => Except.error "NameError: name docs is not defined"
  | Except.ok docs =>
      if bsonAvailable then Except.ok (docs.map normalizeDoc)
      else Except.ok docs

/-- Modelled from the spec: `database.get_documents` is imported from
`database.py`, which is not under src/.  Per the spec's Document Store
Adapter contract, returned records carry "the internal identifier field
normalized to a string under a stable key name distinct from the
identifier's storage representation": each document holds its identifier
as a string under `id`, and no longer under the storage key `_id`. -/
def GetDocumentsSpec (docs : List Doc) : Prop :=
  ∀ d ∈ docs,
    (∃ s, d.lookup "id" = some (Value.str s)) ∧ d.lookup "_id" = none

theorem map_normalize_of_no_storage_id (docs : List Doc)
    (h : ∀ d ∈ docs, d.lookup "_id" = none) :
    docs.map normalizeDoc = docs := by
  induction docs with
  | nil => rfl
  | cons d ds ih =>
      have hd : d.lookup "_id" = none := h d (by simp)
      simp only [List.map_cons, normalizeDoc, hd]
      exact congrArg (d :: ·) (ih fun x hx => h x (by simp [hx]))

/-- C7: on a successful listing (the store call returned documents
satisfying the adapter contract), the handler returns exactly those
documents, and every returned record carries its identifier as a string
under `id` with the storage key `_id` absent — whether or not the bson
module was importable, since the adapter already normalized. -/
theorem list_artisans_normalized (category region : Option String)
    (featured : Option Bool) (limit : Nat)
    (getDocs : Doc → Nat → Except String (List Doc)) (bsonAvailable : Bool)
    (docs : List Doc)
    (hget : getDocs (buildFilter category region featured) limit =
      Except.ok docs)
    (hspec : GetDocumentsSpec docs) :
    list_artisans category region featured limit getDocs bsonAvailable =
      Except.ok docs ∧
    ∀ d ∈ docs,
      (∃ s, d.lookup "id" = some (Value.str s)) ∧ d.lookup "_id" = none := by
  refine ⟨?_, hspec⟩
  cases bsonAvailable with
  | false => simp [list_artisans, hget]
  | true =>
      simp only [list_artisans, hget]
      rw [map_normalize_of_no_storage_id docs fun d hd => (hspec d hd).2]
      simp

/-- Witness for `list_artisans_normalized` on a one-document store. -/
theorem list_artisans_normalized_witness :
    list_artisans (some "pottery") none none 24
        (fun _ _ => Except.ok [[("id", Value.str "65aa05"),
                                ("name", Value.str "Asha")]]) true =
      Except.ok [[("id", Value.str "65aa05"), ("name", Value.str "Asha")]] ∧
    ∀ d ∈ [[("id", Value.str "65aa05"), ("name", Value.str "Asha")]],
      (∃ s, List.lookup "id" d = some (Value.str s)) ∧
        List.lookup "_id" d = none :=
  list_artisans_normalized (some "pottery") none none 24
    (fun _ _ => Except.ok [[("id", Value.str "65aa05"),
                            ("name", Value.str "Asha")]]) true
    [[("id", Value.str "65aa05"), ("name", Value.str "Asha")]] rfl
    (by intro d hd
        simp only [List.mem_singleton] at hd
        subst hd
        exact ⟨⟨"65aa05", rfl⟩, rfl⟩)

/-- Python truthiness of an environment lookup: unset (`None`) and the
empty string are both falsy. -/
def envSet : Option String → Bool
  | none => false
  | some s => !(s == "")

/-- The `/test` diagnostic response (main.py lines 39-46).  The two
env-presence fields start as `None` (hence `Option String`) and are
unconditionally overwritten with masked presence strings before
returning. -/
structure TestResponse : Type where
  backend : String
  database : String
  database_url : Option String
  database_name : Option String
  connection_status : String
  collections : List String

/-- `test_database` (main.py lines 37-67).  `dbAvail` is `db is not
None`; `dbName` is `getattr(db, "name", None)`; `listC` is the outcome of
`db.list_collection_names()`; `envUrl` and `envName` are
`os.getenv("DATABASE_URL")` and `os.getenv("DATABASE_NAME")`.  A failure
while listing collections is caught and rendered into the `database`
field with the message truncated to 80 characters; lines 65-66 then
overwrite `database_url` and `database_name` with masked presence
strings.  (The outer `except` at line 62 guards only attribute/env reads
that cannot raise here, so it is not modelled as a reachable branch.) -/
def test_database (dbAvail : Bool) (dbName : Option String)
    (listC : Except String (List String)) (envUrl envName : Option String) :
    TestResponse :=
  let init : TestResponse :=
    ⟨"✅ Running", "❌ Not Available", none, none, "Not Connected", []⟩
  let mid : TestResponse :=
    if dbAvail then
      let nm := match dbName with
        | some n => if n = "" then "unknown" else n
        | none => "unknown"
      let withDb : TestResponse :=
        { init with
          database := "✅ Available",
          database_url := some (if envSet envUrl then "✅ Set" else "❌ Not Set"),
          database_name := some nm,
          connection_status := "Connected" }
      match listC with
      | Except.ok cols =>
          { withDb with
            collections := cols.take 10,
            database := "✅ Connected & Working" }
      | Except.error e =>
          { withDb with
            database := "⚠️  Connected but Error: " ++ e.take 80 }
    else
      { init with database := "⚠️  Available but not initialized" }
  { mid with
    database_url := some (if envSet envUrl then "✅ Set" else "❌ Not Set"),
    database_name := some (if envSet envName then "✅ Set" else "❌ Not Set") }

/-- C8: the diagnostic probe always returns a diagnostic object — a store
failure while listing collections is caught and rendered as a degraded
status string with the message truncated to 80 characters, the
connection-string and name environment variables are reported only as
masked presence, and at most 10 collection names are returned. -/
theorem test_database_degrades (dbName : Option String)
    (envUrl envName : Option String) (msg : String) (dbAvail : Bool)
    (listC : Except String (List String)) :
    (test_database true dbName (Except.error msg) envUrl envName).database =
      "⚠️  Connected but Error: " ++ msg.take 80 ∧
    (test_database dbAvail dbName listC envUrl envName).database_url =
      some (if envSet envUrl then "✅ Set" else "❌ Not Set") ∧
    (test_database dbAvail dbName listC envUrl envName).database_name =
      some (if envSet envName then "✅ Set" else "❌ Not Set") ∧
    (test_database dbAvail dbName listC envUrl envName).collections.length
      ≤ 10 := by
  refine ⟨rfl, ?_, ?_, ?_⟩
  · cases dbAvail <;> cases listC <;> rfl
  · cases dbAvail <;> cases listC <;> rfl
  · cases dbAvail <;> cases listC <;>
      simp [test_database, List.length_take]

end HAI
